import Mathlib

/-!
Verification of the subtag lookup and canonicalization engine of
`src/language/lookup.go`.

Bytes are modelled as `Nat` (ASCII codes) and byte slices as `List Nat`.
Machine integers (`uint16` identifiers, `uint` packed values) stay within
their ranges on every path exercised here; where the source relies on
`uint16` overflow (the M.49 shift) the reduction modulo `2 ^ 16` is explicit.
Fallible functions return `Except Err`.
-/

/-- Character-class helpers over ASCII byte values. -/
def isUpperB (c : Nat) : Bool := decide (65 ≤ c ∧ c ≤ 90)

def isLowerB (c : Nat) : Bool := decide (97 ≤ c ∧ c ≤ 122)

def isDigitB (c : Nat) : Bool := decide (48 ≤ c ∧ c ≤ 57)

/-- Modelled from the spec: `isAlpha` (defined outside `src/`), used by the
region dispatcher to test for an alphabetic first character. -/
def isAlpha (c : Nat) : Bool := isUpperB c || isLowerB c

def toUpperByte (c : Nat) : Nat := if isLowerB c then c - 32 else c

def toLowerByte (c : Nat) : Nat := if isUpperB c then c + 32 else c

/-- ASCII codes of a character list, used to write byte-string literals. -/
def bytesOf (s : List Char) : List Nat := s.map Char.toNat

/-- Failure kinds of the engine. Modelled from the spec: `errSyntax`,
`mkErrInvalid` and `ValueError` are declared outside `src/`; the spec gives
three kinds — syntax failure, invalid-subtag failure (carrying the rejected
input) and value-range failure (carrying a payload buffer). -/
inductive Err where
  | synErr : Err
  | invalid (subtag : List Nat) : Err
  | valueRange (payload : List Nat) : Err
deriving DecidableEq, Repr

/-- Modelled from the spec: one byte of `tag.FixCase` (package `internal/tag`,
outside `src/`): each input byte must be a letter or digit matching the
template byte's class, and its case is forced to the template's case. -/
def fixByte (f c : Nat) : Option Nat :=
  if isUpperB f then
    if isUpperB c then some c
    else if isLowerB c then some (c - 32)
    else none
  else if isLowerB f then
    if isLowerB c then some c
    else if isUpperB c then some (c + 32)
    else none
  else if isDigitB f then
    if isDigitB c then some c else none
  else none

def fixCaseAux : List Nat → List Nat → Option (List Nat)
  | [], [] => some []
  | f :: fs, c :: cs =>
    match fixByte f c, fixCaseAux fs cs with
    | some d, some ds => some (d :: ds)
    | _, _ => none
  | _, _ => none

/-- Modelled from the spec: `tag.FixCase(form, b)` (outside `src/`).
The Go function normalizes `b` in place and reports success; the model
returns the normalized bytes, or `none` on a length or class mismatch. -/
def fixCase (form s : List Nat) : Option (List Nat) := fixCaseAux form s

/-- Fixed-width sorted index: an immutable list of fixed-length byte
records. Modelled from the spec (`tag.Index` lives outside `src/`). -/
abbrev TagIndex := List (List Nat)

def elemAt (t : TagIndex) (i : Nat) : List Nat := t.getD i []

/-- Modelled from the spec: `tag.Index.Index(key)` — exact lookup of the
first record whose leading bytes equal `key` (`-1`, here `none`, if absent). -/
def idxIndex (t : TagIndex) (key : List Nat) : Option Nat :=
  t.findIdx? (fun r => key.isPrefixOf r)

/-- Scan of the consecutive run of records sharing `key` as prefix, starting
at index `i`, for the first record satisfying `p`; this is the functional
form of the source's `for i := idx.Index(key); i != -1; i = idx.Next(key, i)`
loops (`Next` is modelled from the spec: the next consecutive record with the
same prefix, or not-found). -/
def runScan (recs : TagIndex) (key : List Nat) (p : List Nat → Bool) :
    Nat → Nat → Option Nat
  | _, 0 => none
  | i, fuel + 1 =>
    match recs.get? i with
    | none => none
    | some r =>
      if key.isPrefixOf r then
        if p r then some i else runScan recs key p (i + 1) fuel
      else none

def findInRun (t : TagIndex) (key : List Nat) (p : List Nat → Bool) :
    Option Nat :=
  match idxIndex t key with
  | none => none
  | some i0 => runScan t key p i0 (t.length - i0)

/-- Go's `sort.Search` (standard library, modelled from its documented
contract by its own algorithm): smallest index in `[0, n)` at which `f`
holds, assuming `f` monotone; `n` when none. Fuel-based binary search. -/
def goSearch (f : Nat → Bool) : Nat → Nat → Nat → Nat
  | 0, i, _ => i
  | fuel + 1, i, j =>
    if i < j then
      let h := (i + j) / 2
      if f h then goSearch f fuel i h else goSearch f fuel (h + 1) j
    else i

def sortSearch (n : Nat) (f : Nat → Bool) : Nat := goSearch f n 0 n

/-- `searchUint` from the source: `sort.Search` over a `[]uint16` for the
first element `≥ key`. -/
def searchUint (imap : List Nat) (key : Nat) : Nat :=
  sortSearch imap.length (fun i => decide (imap.getD i 0 ≥ key))

/-- `findIndex` from the source: case-fix against `form`, then index lookup;
class mismatch is a syntax failure, a missing record an invalid-subtag
failure (carrying the normalized key, as the Go code normalizes in place). -/
def findIndex (idx : TagIndex) (key : List Nat) (form : List Nat) :
    Except Err Nat :=
  match fixCase form key with
  | none => Except.error Err.synErr
  | some t =>
    match idxIndex idx t with
    | none => Except.error (Err.invalid t)
    | some i => Except.ok i

/-- `base = 'z' - 'a' + 1` from the source. -/
def base : Nat := 26

/-- `strToInt` from the source: base-26 packing, most significant first. -/
def strToInt (s : List Nat) : Nat :=
  s.foldl (fun v c => v * base + (c - 97)) 0

/-- `intToStr` from the source: writes the base-26 digits of `v` into a
buffer of the given length from the last position backward; the model
returns the buffer. -/
def intToStr (v : Nat) : Nat → List Nat
  | 0 => []
  | n + 1 => intToStr (v / base) n ++ [v % base + 97]

/-- Modelled from the spec: the `lang` fixed-width index (registry data
outside `src/`). Records are 4 bytes, sorted; a 2-letter entry carries the
2nd/3rd letter of its ISO 639-3 form in bytes 2-3 (byte 3 nonzero), a
3-letter-only entry carries its 3rd letter in byte 2 and 0 in byte 3.
Slot 0 is the never-matched dummy record; the table holds the entries the
spec names: "bo"(ISO3 bod), "en"(ISO3 eng), "tlh", and the non-canonical
"und" record. -/
def lang : TagIndex :=
  [[45, 45, 45, 0],
   bytesOf ['b', 'o', 'o', 'd'],
   bytesOf ['e', 'n', 'n', 'g'],
   bytesOf ['t', 'l', 'h'] ++ [0],
   bytesOf ['u', 'n', 'd'] ++ [0]]

/-- Modelled from the spec: the table slot holding the non-canonical "und"
record, which the resolver special-cases to identifier 0. -/
def nonCanonicalUnd : Nat := 4

/-- Modelled from the spec: the fixed offset separating table-indexed
language identifiers from dense base-26-packed ones. -/
def langNoIndexOffset : Nat := 100

/-- Modelled from the spec: the `langNoIndex` bitset over packed 3-letter
codes (registry data outside `src/`); here only the packed value 1 ("aab")
is marked as an ISO 639-3 code without a table slot. -/
def langNoIndex : List Nat := [2]

/-- Modelled from the spec: the secondary 3-letter alias index
(`altLangISO3`, outside `src/`): 3-letter key plus a payload byte indexing
`altLangIndex`; here "tib" back-references the entry for "bo". -/
def altLangISO3 : TagIndex := [bytesOf ['t', 'i', 'b'] ++ [0]]

/-- Modelled from the spec: back-reference targets of `altLangISO3`. -/
def altLangIndex : List Nat := [1]

/-- Modelled from the spec: the language alias table (`langAliasMap`,
outside `src/`): `(from, to)` pairs sorted ascending by `from`; no `to`
appears as a `from`. -/
def langAliasMap : List (Nat × Nat) := [(10, 20)]

/-- Classification kinds of language aliases. Modelled from the spec:
macrolanguage vs. legacy vs. deprecated substitution, plus the
"unknown / no alias" kind the source calls `langAliasTypeUnknown`. -/
inductive LangAliasType where
  | unknown : LangAliasType
  | macroLang : LangAliasType
  | legacy : LangAliasType
  | deprecated : LangAliasType
deriving DecidableEq, Repr

/-- Modelled from the spec: classifications parallel to `langAliasMap`. -/
def langAliasTypes : List LangAliasType := [LangAliasType.macroLang]

/-- `normLang` from the source: binary-search `langAliasMap` for `from = id`;
on a hit return `(to, kind)`, otherwise `(id, unknown)`. -/
def normLang (id : Nat) : Nat × LangAliasType :=
  let m := langAliasMap
  let k := sortSearch m.length (fun i => decide ((m.getD i (0, 0)).1 ≥ id))
  if k < m.length then
    if (m.getD k (0, 0)).1 = id then
      ((m.getD k (0, 0)).2, langAliasTypes.getD k LangAliasType.unknown)
    else (id, LangAliasType.unknown)
  else (id, LangAliasType.unknown)

/-- `getLangISO2` from the source: case-fix against "zz", index lookup;
the hit must have a nonzero 4th byte (2-letter marker). -/
def getLangISO2 (s : List Nat) : Except Err Nat :=
  match fixCase (bytesOf ['z', 'z']) s with
  | none => Except.error Err.synErr
  | some t =>
    match idxIndex lang t with
    | some i =>
      if (elemAt lang i).getD 3 0 ≠ 0 then Except.ok i
      else Except.error (Err.invalid t)
    | none => Except.error (Err.invalid t)

/-- `getLangISO3` from the source: case-fix against "und", then in order:
canonical 2-letter-prefix scan (with the `nonCanonicalUnd` special case
resolving to 0), the `altLangISO3` back-reference, the `langNoIndex` dense
packed fallback, and the non-canonical 1-letter-prefix ISO3 scan. -/
def getLangISO3 (s : List Nat) : Except Err Nat :=
  match fixCase (bytesOf ['u', 'n', 'd']) s with
  | none => Except.error Err.synErr
  | some t =>
    match findInRun lang (t.take 2)
        (fun e => decide (e.getD 3 0 = 0 ∧ e.getD 2 0 = t.getD 2 0)) with
    | some i => if i = nonCanonicalUnd then Except.ok 0 else Except.ok i
    | none =>
      match idxIndex altLangISO3 t with
      | some i =>
        Except.ok (altLangIndex.getD ((elemAt altLangISO3 i).getD 3 0) 0)
      | none =>
        let n := strToInt t
        if langNoIndex.getD (n / 8) 0 &&& (1 <<< (n % 8)) ≠ 0 then
          Except.ok (n + langNoIndexOffset)
        else
          match findInRun lang (t.take 1)
              (fun e =>
                decide (e.getD 2 0 = t.getD 1 0 ∧ e.getD 3 0 = t.getD 2 0)) with
          | some i => Except.ok i
          | none => Except.error (Err.invalid t)

/-- `getLangID` from the source: dispatch on byte length. -/
def getLangID (s : List Nat) : Except Err Nat :=
  if s.length = 2 then getLangISO2 s else getLangISO3 s

/-- `langID.String` from the source: 0 renders "und", the dense range
unpacks via `intToStr`, table records render their 3-letter form when byte 3
is zero and their 2-letter form otherwise. -/
def langString (b : Nat) : List Nat :=
  if b = 0 then bytesOf ['u', 'n', 'd']
  else if b ≥ langNoIndexOffset then intToStr (b - langNoIndexOffset) 3
  else
    let l := elemAt lang b
    if l.getD 3 0 = 0 then l.take 3 else l.take 2

/-- Modelled from the spec: the `regionISO` fixed-width index (registry data
outside `src/`). Records: 2-letter code in bytes 0-1; byte 2 is the 2nd
letter of the ISO3 form (`0` directs byte 3 into `altRegionISO3`, a space
means "no 3-letter form"); byte 3 the 3rd. Holds BU (ISO3 BUR, deprecated),
MM (MMR), US (USA) and the private-use ZZ. -/
def regionISO : TagIndex :=
  [bytesOf ['B', 'U', 'U', 'R'],
   bytesOf ['M', 'M', 'M', 'R'],
   bytesOf ['U', 'S', 'S', 'A'],
   bytesOf ['Z', 'Z', ' ', ' ']]

/-- Modelled from the spec: the fixed constant separating numeric (M.49)
region identifiers from ISO-indexed ones. -/
def isoRegionOffset : Nat := 32

/-- Modelled from the spec: the flat alternate-ISO3 region table and its
parallel identifier list (registry data outside `src/`); empty here. -/
def altRegionISO3 : List Nat := []

def altRegionIDs : List Nat := []

/-- Modelled from the spec: the segmented M.49 table (registry data outside
`src/`). Each `uint16` entry packs the key's low 7 bits in the top bits and
the region identifier in the low 9 bits; `m49Index` gives the bucket bounds
selected by the key's high 3 bits. The modelled registry defines the numeric
codes 1, 127, 255, 383, 511, 639, 767, 895, 999 (numeric-only regions,
identifiers 1-9) and 840 (mapping to the ISO-indexed identifier of US). -/
def fromM49 : List Nat :=
  [513, 65026, 65027, 65028, 65029, 65030, 65031, 36898, 65032, 52745]

def m49Index : List Nat := [0, 2, 3, 4, 5, 6, 7, 9, 10]

/-- Modelled from the spec: the reverse M.49 list, indexed by region
identifier (registry data outside `src/`); identifier 34 is US (840). -/
def m49 : List Nat :=
  [0, 1, 127, 255, 383, 511, 639, 767, 895, 999,
   0, 0, 0, 0, 0, 0, 0, 0, 0, 0, 0, 0, 0, 0, 0, 0, 0, 0, 0, 0, 0, 0,
   0, 0, 840, 0]

/-- The decimal ASCII rendering of `n`, as `fmt.Fprint` would write it
(modelled from the Go standard library; fuel-based). -/
def asciiDecAux : Nat → Nat → List Nat
  | 0, _ => []
  | fuel + 1, n => if n = 0 then [] else asciiDecAux fuel (n / 10) ++ [n % 10 + 48]

def asciiDec (n : Nat) : List Nat :=
  if n = 0 then [48] else asciiDecAux (n + 1) n

/-- Modelled from Go's `bytes.Buffer` and `append` semantics (standard
library): `bytes.NewBuffer(b)` adopts `b` with its full length as existing
content, and a write appends after that content — in place when the backing
capacity suffices, into a freshly allocated array (leaving the original
untouched) when it does not. -/
def bufferAppendInto (backing : List Nat) (len cap : Nat) (data : List Nat) :
    List Nat :=
  if len + data.length ≤ cap then
    backing.take len ++ data ++ backing.drop (len + data.length)
  else backing

/-- The `ValueError` produced at the end of `getRegionM49`:
`var e ValueError` zeroes the 8-byte payload, and
`fmt.Fprint(bytes.NewBuffer([]byte(e.v[:])), n)` hands the buffer a slice
with length = capacity = 8, so the written digits of `n` land after the
existing 8 bytes in a reallocated array; `e` is returned as-is. -/
def m49ValueError (n : Nat) : Err :=
  Err.valueRange (bufferAppendInto (List.replicate 8 0) 8 8 (asciiDec n))

/-- `getRegionM49` from the source: range-check `0 < n ≤ 999`, select the
bucket by `n >> 7`, binary-search it for `uint16(n) << 9` (high bits shift
out modulo `2^16`), and require an exact match of the masked key bits. -/
def getRegionM49 (n : Nat) : Except Err Nat :=
  if 0 < n ∧ n ≤ 999 then
    let idx := n >>> 7
    let bufStart := m49Index.getD idx 0
    let bufLen := m49Index.getD (idx + 1) 0 - bufStart
    let val := (n <<< 9) % 65536
    let i := sortSearch bufLen
      (fun i => decide (fromM49.getD (bufStart + i) 0 ≥ val))
    let r := fromM49.getD (bufStart + i) 0
    if r / 512 * 512 = val then Except.ok (r % 512)
    else Except.error (m49ValueError n)
  else Except.error (m49ValueError n)

/-- `strconv.ParseUint(string(s), 10, 10)` (Go standard library, modelled
from its documented contract): decimal digits only, value below `2^10`. -/
def parseUint10 (s : List Nat) : Option Nat :=
  if s ≠ [] ∧ s.all isDigitB then
    let v := s.foldl (fun a c => a * 10 + (c - 48)) 0
    if v < 1024 then some v else none
  else none

/-- `getRegionISO2` from the source: `findIndex` against "ZZ", then offset
into the ISO-indexed identifier range. -/
def getRegionISO2 (s : List Nat) : Except Err Nat :=
  match findIndex regionISO s (bytesOf ['Z', 'Z']) with
  | Except.ok i => Except.ok (i + isoRegionOffset)
  | Except.error e => Except.error e

/-- `getRegionISO3` from the source: case-fix against "ZZZ", scan the
1-letter-prefix run for a byte-2/3 match, then linear-scan `altRegionISO3`
(3-byte compare) for a back-reference. -/
def getRegionISO3 (s : List Nat) : Except Err Nat :=
  match fixCase (bytesOf ['Z', 'Z', 'Z']) s with
  | none => Except.error Err.synErr
  | some t =>
    match findInRun regionISO (t.take 1)
        (fun e =>
          decide (e.getD 2 0 = t.getD 1 0 ∧ e.getD 3 0 = t.getD 2 0)) with
    | some i => Except.ok (i + isoRegionOffset)
    | none =>
      match (List.range (altRegionISO3.length / 3)).find?
          (fun i => (altRegionISO3.drop (3 * i)).take 3 == t) with
      | some i => Except.ok (altRegionIDs.getD i 0)
      | none => Except.error (Err.invalid t)

/-- `getRegionID` from the source: length-3 inputs dispatch on an alphabetic
first byte to the ISO3 path, else try the numeric M.49 path; everything
else (including other lengths) goes through the ISO2 path. -/
def getRegionID (s : List Nat) : Except Err Nat :=
  if s.length = 3 then
    if isAlpha (s.getD 0 0) then getRegionISO3 s
    else
      match parseUint10 s with
      | some n => getRegionM49 n
      | none => getRegionISO2 s
  else getRegionISO2 s

/-- Modelled from the spec: the region alias table (`regionOldMap`, registry
data outside `src/`): `(from, to)` pairs sorted ascending by `from`; here
the deprecated BU maps to MM. -/
def regionOldMap : List (Nat × Nat) := [(32, 33)]

/-- `normRegion` from the source: binary-search `regionOldMap` for
`from = r`; on a hit return `to`, otherwise 0. -/
def normRegion (r : Nat) : Nat :=
  let m := regionOldMap
  let k := sortSearch m.length (fun i => decide ((m.getD i (0, 0)).1 ≥ r))
  if k < m.length then
    if (m.getD k (0, 0)).1 = r then (m.getD k (0, 0)).2 else 0
  else 0

/-- Zero-padded 3-digit decimal, as `fmt.Sprintf` with the `%03d` verb
renders the (≤ 999) M.49 codes. -/
def pad3 (n : Nat) : List Nat :=
  [n / 100 % 10 + 48, n / 10 % 10 + 48, n % 10 + 48]

/-- `regionID.String` from the source: below the ISO offset, "ZZ" for 0 and
the zero-padded M.49 code otherwise; at or above it, the record's 2-letter
form. -/
def regionString (r : Nat) : List Nat :=
  if r < isoRegionOffset then
    if r = 0 then bytesOf ['Z', 'Z'] else pad3 (m49.getD r 0)
  else (elemAt regionISO (r - isoRegionOffset)).take 2

/-- Modelled from the spec: the `script` fixed-width index (registry data
outside `src/`): 4-letter records; slot 0 is the never-matched dummy. -/
def script : TagIndex :=
  [[45, 45, 45, 45],
   bytesOf ['L', 'a', 't', 'n'],
   bytesOf ['Z', 'z', 'z', 'z']]

/-- `getScriptID` from the source: `findIndex` against "Zzzz". -/
def getScriptID (idx : TagIndex) (s : List Nat) : Except Err Nat :=
  findIndex idx s (bytesOf ['Z', 'z', 'z', 'z'])

/-- `scriptID.String` from the source: "Zzzz" for 0, else the record. -/
def scriptString (s : Nat) : List Nat :=
  if s = 0 then bytesOf ['Z', 'z', 'z', 'z'] else elemAt script s

/-- Modelled from the spec: the `currency` fixed-width index (registry data
outside `src/`): 3-letter records plus an info byte; slot 0 is the
never-matched dummy. -/
def currency : TagIndex :=
  [[45, 45, 45, 0],
   bytesOf ['U', 'S', 'D'] ++ [2],
   bytesOf ['X', 'X', 'X'] ++ [0]]

/-- `getCurrencyID` from the source: `findIndex` against "XXX". -/
def getCurrencyID (idx : TagIndex) (s : List Nat) : Except Err Nat :=
  findIndex idx s (bytesOf ['X', 'X', 'X'])

/-- `currencyID.String` from the source: "XXX" for 0, else the record's
3-letter form. -/
def currencyString (c : Nat) : List Nat :=
  if c = 0 then bytesOf ['X', 'X', 'X'] else (elemAt currency c).take 3

/-- Whole tags. Modelled from the spec: the full `Tag` type and its `Make`
constructor (BCP-47 tag parsing) are out of scope; a tag here is either the
zero tag with a bare language identifier set, or the opaque result of `Make`
on a replacement tag string. -/
inductive Tag where
  | ofLang (id : Nat) : Tag
  | made (s : List Nat) : Tag
deriving DecidableEq, Repr

/-- Modelled from the spec: the out-of-scope tag constructor `Make`, kept
opaque (its argument is recorded, not parsed). -/
def Make (s : List Nat) : Tag := Tag.made s

/-- Modelled from the spec: language identifier constants used by
`grandfatheredMap` for languages outside the modelled `lang` table;
`tlhLang` is the modelled Klingon slot. -/
def tlhLang : Nat := 3

def jboLang : Nat := 40
def amiLang : Nat := 41
def bnnLang : Nat := 42
def hakLang : Nat := 43
def lbLang : Nat := 44
def nvLang : Nat := 45
def pwnLang : Nat := 46
def taoLang : Nat := 47
def tayLang : Nat := 48
def tsuLang : Nat := 49
def nbLang : Nat := 50
def nnLang : Nat := 51
def sfbLang : Nat := 52
def vgtLang : Nat := 53
def sggLang : Nat := 54
def cmnLang : Nat := 55
def nanLang : Nat := 56
def hsnLang : Nat := 57

/-- `grandfatheredMap` from the source: legacy and grandfathered tags mapped
to a base language identifier, a negative index into the replacement-tag
string table, or 0 for the CLDR-specific "root". -/
def grandfatheredMap : List (List Nat × Int) :=
  [(bytesOf ['a', 'r', 't', '-', 'l', 'o', 'j', 'b', 'a', 'n'], (jboLang : Int)),
   (bytesOf ['i', '-', 'a', 'm', 'i'], (amiLang : Int)),
   (bytesOf ['i', '-', 'b', 'n', 'n'], (bnnLang : Int)),
   (bytesOf ['i', '-', 'h', 'a', 'k'], (hakLang : Int)),
   (bytesOf ['i', '-', 'k', 'l', 'i', 'n', 'g', 'o', 'n'], (tlhLang : Int)),
   (bytesOf ['i', '-', 'l', 'u', 'x'], (lbLang : Int)),
   (bytesOf ['i', '-', 'n', 'a', 'v', 'a', 'j', 'o'], (nvLang : Int)),
   (bytesOf ['i', '-', 'p', 'w', 'n'], (pwnLang : Int)),
   (bytesOf ['i', '-', 't', 'a', 'o'], (taoLang : Int)),
   (bytesOf ['i', '-', 't', 'a', 'y'], (tayLang : Int)),
   (bytesOf ['i', '-', 't', 's', 'u'], (tsuLang : Int)),
   (bytesOf ['n', 'o', '-', 'b', 'o', 'k'], (nbLang : Int)),
   (bytesOf ['n', 'o', '-', 'n', 'y', 'n'], (nnLang : Int)),
   (bytesOf ['s', 'g', 'n', '-', 'B', 'E', '-', 'F', 'R'], (sfbLang : Int)),
   (bytesOf ['s', 'g', 'n', '-', 'B', 'E', '-', 'N', 'L'], (vgtLang : Int)),
   (bytesOf ['s', 'g', 'n', '-', 'C', 'H', '-', 'D', 'E'], (sggLang : Int)),
   (bytesOf ['z', 'h', '-', 'g', 'u', 'o', 'y', 'u'], (cmnLang : Int)),
   (bytesOf ['z', 'h', '-', 'h', 'a', 'k', 'k', 'a'], (hakLang : Int)),
   (bytesOf ['z', 'h', '-', 'm', 'i', 'n', '-', 'n', 'a', 'n'], (nanLang : Int)),
   (bytesOf ['z', 'h', '-', 'x', 'i', 'a', 'n', 'g'], (hsnLang : Int)),
   (bytesOf ['c', 'e', 'l', '-', 'g', 'a', 'u', 'l', 'i', 's', 'h'], -1),
   (bytesOf ['e', 'n', '-', 'G', 'B', '-', 'o', 'e', 'd'], -2),
   (bytesOf ['i', '-', 'd', 'e', 'f', 'a', 'u', 'l', 't'], -3),
   (bytesOf ['i', '-', 'e', 'n', 'o', 'c', 'h', 'i', 'a', 'n'], -4),
   (bytesOf ['i', '-', 'm', 'i', 'n', 'g', 'o'], -5),
   (bytesOf ['z', 'h', '-', 'm', 'i', 'n'], -6),
   (bytesOf ['r', 'o', 'o', 't'], 0)]

/-- `altTagIndex` from the source: cumulative offsets into `altTags`. -/
def altTagIndex : List Nat := [0, 17, 28, 42, 58, 71, 83]

/-- `altTags` from the source: the concatenated replacement tag literals
"xtg-x-cel-gaulish", "en-GB-x-oed", "en-x-i-default", "und-x-i-enochian",
"see-x-i-mingo", "nan-x-zh-min". -/
def altTags : List Nat :=
  bytesOf ['x', 't', 'g', '-', 'x', '-', 'c', 'e', 'l', '-', 'g', 'a', 'u',
           'l', 'i', 's', 'h',
           'e', 'n', '-', 'G', 'B', '-', 'x', '-', 'o', 'e', 'd',
           'e', 'n', '-', 'x', '-', 'i', '-', 'd', 'e', 'f', 'a', 'u', 'l',
           't',
           'u', 'n', 'd', '-', 'x', '-', 'i', '-', 'e', 'n', 'o', 'c', 'h',
           'i', 'a', 'n',
           's', 'e', 'e', '-', 'x', '-', 'i', '-', 'm', 'i', 'n', 'g', 'o',
           'n', 'a', 'n', '-', 'x', '-', 'z', 'h', '-', 'm', 'i', 'n']

/-- `grandfathered` from the source: exact map lookup; a negative value `v`
slices `altTags[altTagIndex[-v-1] : altTagIndex[-v]]` and hands it to
`Make`, a non-negative one is returned as the zero tag's language. -/
def grandfathered (s : List Nat) : Tag × Bool :=
  match List.lookup s grandfatheredMap with
  | some v =>
    if v < 0 then
      let a := altTagIndex.getD (-v - 1).toNat 0
      let b := altTagIndex.getD (-v).toNat 0
      (Make ((altTags.drop a).take (b - a)), true)
    else (Tag.ofLang v.toNat, true)
  | none => (Tag.ofLang 0, false)

deriving instance DecidableEq for Except

theorem sortSearch_singleton (f : Nat → Bool) :
    sortSearch 1 f = if f 0 then 0 else 1 := by
  simp [sortSearch, goSearch]

theorem normRegion_eq (r : Nat) :
    normRegion r = if r = 32 then 33 else 0 := by
  simp only [normRegion, regionOldMap]
  rw [show (([(32, 33)] : List (Nat × Nat)).length) = 1 from rfl,
    sortSearch_singleton]
  by_cases h : r = 32
  · simp [h]
  · by_cases h2 : 32 ≥ r
    · simp [h, h2]
      omega
    · simp [h, h2]

theorem normLang_eq (id : Nat) :
    normLang id = if id = 10 then (20, LangAliasType.macroLang)
      else (id, LangAliasType.unknown) := by
  simp only [normLang, langAliasMap, langAliasTypes]
  rw [show (([(10, 20)] : List (Nat × Nat)).length) = 1 from rfl,
    sortSearch_singleton]
  by_cases h : id = 10
  · simp [h]
  · by_cases h2 : 10 ≥ id
    · simp [h, h2]
      omega
    · simp [h, h2]

/-- C1 counterexample: US (identifier 34) has no entry in the region alias
table, yet `normRegion` does not return it unchanged — it returns 0. -/
theorem normRegion_current_not_noop : ¬ normRegion 34 = 34 := by decide

/-- C1 (amended): `normRegion` returns the alias entry's replacement
identifier for an aliased region (here BU → MM, 32 → 33) and 0 — not the
input — for every region with no alias entry, matching its doc comment
"returns a region if r is deprecated or 0 otherwise". -/
theorem normRegion_returns_alias_or_zero (r : Nat) :
    normRegion r = if r = 32 then 33 else 0 := normRegion_eq r

/-- C7 counterexample: language identifier 10 is aliased to 20 with the
macrolanguage classification; re-applying `normLang` to the output
identifier yields the same identifier but the unknown classification, so
the full result of applying twice differs from applying once. -/
theorem normLang_twice_changes_classification :
    ¬ normLang (normLang 10).1 = normLang 10 := by decide

/-- C7 (amended): under the table precondition that no alias entry's `to`
appears as a `from` (true of the modelled `langAliasMap`), `normLang` is
idempotent on the identifier component: applying it twice yields the same
identifier as applying it once (the classification, however, degrades to
unknown once the alias has been applied). -/
theorem normLang_identifier_idempotent (id : Nat) :
    (normLang (normLang id).1).1 = (normLang id).1 := by
  rw [normLang_eq id]
  by_cases h : id = 10
  · simp [h, normLang_eq]
  · simp [h, normLang_eq]

/-- C3 counterexample: resolving the region code "ZZ" does not yield
identifier 0 — "ZZ" is a real (private-use) table entry, resolved to its
ISO-indexed slot, as the source's comment states ("ZZ and Zzzz are private
use and are not treated as unspecified by default"). -/
theorem resolve_ZZ_not_zero :
    ¬ getRegionID (bytesOf ['Z', 'Z']) = Except.ok 0 := by decide

/-- C3 (amended): resolving "und" yields language identifier 0 and the
stringifiers render identifier 0 as "und"/"ZZ"/"Zzzz"/"XXX"; but resolving
"ZZ", "Zzzz" and "XXX" yields the nonzero identifiers of their table
entries (35, 2 and 2 in the modelled tables), not the unspecified 0. -/
theorem sentinel_identity_amended :
    getLangID (bytesOf ['u', 'n', 'd']) = Except.ok 0 ∧
    langString 0 = bytesOf ['u', 'n', 'd'] ∧
    regionString 0 = bytesOf ['Z', 'Z'] ∧
    scriptString 0 = bytesOf ['Z', 'z', 'z', 'z'] ∧
    currencyString 0 = bytesOf ['X', 'X', 'X'] ∧
    getRegionID (bytesOf ['Z', 'Z']) = Except.ok 35 ∧
    getScriptID script (bytesOf ['Z', 'z', 'z', 'z']) = Except.ok 2 ∧
    getCurrencyID currency (bytesOf ['X', 'X', 'X']) = Except.ok 2 := by
  decide

/-- C4 counterexample: the non-canonical "und" table slot is table-backed,
renders as "und", and "und" resolves to 0, so resolve(render(id)) ≠ id
there. -/
theorem roundtrip_fails_at_nonCanonicalUnd :
    ¬ getLangID (langString nonCanonicalUnd) = Except.ok nonCanonicalUnd := by
  decide

/-- C4 (amended): resolve(render(id)) = id for every table-backed language
identifier except the non-canonical "und" slot, and for every region
identifier backed by either the M.49 table (1-9 here) or the ISO index
(32-35 here). -/
theorem roundtrip_table_backed_amended :
    (∀ id < 5, id ≠ nonCanonicalUnd →
      getLangID (langString id) = Except.ok id) ∧
    (∀ id < 36, (1 ≤ id ∧ id ≤ 9) ∨ 32 ≤ id →
      getRegionID (regionString id) = Except.ok id) := by
  decide

theorem roundtrip_table_backed_amended_witness :
    getLangID (langString 2) = Except.ok 2 ∧
    getRegionID (regionString 34) = Except.ok 34 :=
  ⟨roundtrip_table_backed_amended.1 2 (by decide) (by decide),
   roundtrip_table_backed_amended.2 34 (by decide) (by decide)⟩

/-- The numeric region codes defined by the modelled M.49 table. -/
def m49Defined : List Nat :=
  [1, 127, 255, 383, 511, 639, 767, 840, 895, 999]

set_option maxRecDepth 100000 in
/-- C2: for every parsable numeric input (below `2^10`, the `ParseUint`
bit size) outside the defined numeric-region table — including 0 —
`getRegionM49` returns a value-range failure, but its payload is the
still-zeroed 8-byte buffer, never the digits of `n`: the `fmt.Fprint` into
`bytes.NewBuffer([]byte(e.v[:]))` appends past the full backing slice and
reallocates, so the digits never reach `e.v`. -/
theorem getRegionM49_valueRange_zero_payload : ∀ n < 1024, n ∉ m49Defined →
    getRegionM49 n = Except.error (Err.valueRange (List.replicate 8 0)) := by
  decide

theorem getRegionM49_valueRange_zero_payload_witness :
    getRegionM49 2 = Except.error (Err.valueRange (List.replicate 8 0)) :=
  getRegionM49_valueRange_zero_payload 2 (by decide) (by decide)

/-- C5: the base-26 packer round-trips: for every 3-letter lowercase
string, `intToStr` applied to `strToInt` reproduces the bytes. -/
theorem packer_inverse (a b c : Nat)
    (ha1 : 97 ≤ a) (ha2 : a ≤ 122) (hb1 : 97 ≤ b) (hb2 : b ≤ 122)
    (hc1 : 97 ≤ c) (hc2 : c ≤ 122) :
    intToStr (strToInt [a, b, c]) 3 = [a, b, c] := by
  simp [strToInt, intToStr, base]
  omega

theorem packer_inverse_witness :
    intToStr (strToInt [120, 121, 122]) 3 = [120, 121, 122] :=
  packer_inverse 120 121 122 (by decide) (by decide) (by decide) (by decide)
    (by decide) (by decide)

theorem fixByte_toUpper (f c : Nat) :
    fixByte f (toUpperByte c) = fixByte f c := by
  simp only [toUpperByte, fixByte, isUpperB, isLowerB, isDigitB]
  by_cases h1 : 97 ≤ c ∧ c ≤ 122
  · simp only [h1, decide_eq_true_eq]
    norm_num
    split_ifs <;> simp_all <;> omega
  · simp [h1]

theorem fixByte_toLower (f c : Nat) :
    fixByte f (toLowerByte c) = fixByte f c := by
  simp only [toLowerByte, fixByte, isUpperB, isLowerB, isDigitB]
  by_cases h1 : 65 ≤ c ∧ c ≤ 90
  · simp only [h1, decide_eq_true_eq]
    norm_num
    split_ifs <;> simp_all <;> omega
  · simp [h1]

theorem fixCaseAux_map (g : Nat → Nat)
    (hg : ∀ f c, fixByte f (g c) = fixByte f c) :
    ∀ form s, fixCaseAux form (s.map g) = fixCaseAux form s := by
  intro form
  induction form with
  | nil => intro s; cases s <;> simp [fixCaseAux]
  | cons f fs ih =>
    intro s
    cases s with
    | nil => simp [fixCaseAux]
    | cons c cs => simp [fixCaseAux, hg, ih]

theorem fixCase_map (g : Nat → Nat)
    (hg : ∀ f c, fixByte f (g c) = fixByte f c) (form s : List Nat) :
    fixCase form (s.map g) = fixCase form s :=
  fixCaseAux_map g hg form s

theorem getLangISO2_map (g : Nat → Nat)
    (hg : ∀ f c, fixByte f (g c) = fixByte f c) (s : List Nat) :
    getLangISO2 (s.map g) = getLangISO2 s := by
  unfold getLangISO2
  rw [fixCase_map g hg]

theorem getLangISO3_map (g : Nat → Nat)
    (hg : ∀ f c, fixByte f (g c) = fixByte f c) (s : List Nat) :
    getLangISO3 (s.map g) = getLangISO3 s := by
  unfold getLangISO3
  rw [fixCase_map g hg]

theorem getLangID_map (g : Nat → Nat)
    (hg : ∀ f c, fixByte f (g c) = fixByte f c) (s : List Nat) :
    getLangID (s.map g) = getLangID s := by
  unfold getLangID
  rw [List.length_map]
  by_cases h : s.length = 2
  · simp [h, getLangISO2_map g hg]
  · simp [h, getLangISO3_map g hg]

theorem fixByte_letter_digit_none (f c : Nat)
    (hf : isUpperB f ∨ isLowerB f) (hc : isDigitB c) :
    fixByte f c = none := by
  simp only [isUpperB, isLowerB, isDigitB, decide_eq_true_eq] at hf hc
  simp only [fixByte, isUpperB, isLowerB, isDigitB]
  split_ifs <;> simp_all <;> omega

theorem fixCaseAux_digit_none :
    ∀ form s, (∀ f ∈ form, isUpperB f ∨ isLowerB f) →
      (∃ b ∈ s, isDigitB b) → fixCaseAux form s = none := by
  intro form s
  induction s generalizing form with
  | nil => rintro _ ⟨b, hb, _⟩; cases hb
  | cons c cs ih =>
    rintro hform ⟨b, hb, hbd⟩
    cases form with
    | nil => simp [fixCaseAux]
    | cons f fs =>
      rcases List.mem_cons.mp hb with h | h
      · subst h
        have h0 : fixByte f b = none :=
          fixByte_letter_digit_none f b (hform f (by simp)) hbd
        simp [fixCaseAux, h0]
      · have h0 : fixCaseAux fs cs = none :=
          ih fs (fun f2 hf2 => hform f2 (by simp [hf2])) ⟨b, h, hbd⟩
        cases hfb : fixByte f c <;> simp [fixCaseAux, hfb, h0]

theorem getLangID_digit_failure (s : List Nat)
    (hd : ∃ b ∈ s, isDigitB b) : getLangID s = Except.error Err.synErr := by
  have h2 : fixCaseAux (bytesOf ['z', 'z']) s = none :=
    fixCaseAux_digit_none _ s (by decide) hd
  have h3 : fixCaseAux (bytesOf ['u', 'n', 'd']) s = none :=
    fixCaseAux_digit_none _ s (by decide) hd
  unfold getLangID getLangISO2 getLangISO3 fixCase
  by_cases h : s.length = 2 <;> simp [h, h2, h3]

/-- C6: language resolution is case-insensitive — upper-casing or
lower-casing the input never changes the result, valid or not — and any
input containing a digit (every position of the language templates "zz" and
"und" requires a letter) is rejected with a syntax failure. -/
theorem resolve_case_insensitive_digit_failure (s : List Nat) :
    getLangID (s.map toUpperByte) = getLangID s ∧
    getLangID (s.map toLowerByte) = getLangID s ∧
    ((∃ b ∈ s, isDigitB b) → getLangID s = Except.error Err.synErr) :=
  ⟨getLangID_map toUpperByte fixByte_toUpper s,
   getLangID_map toLowerByte fixByte_toLower s,
   getLangID_digit_failure s⟩

theorem resolve_case_insensitive_digit_failure_witness :
    getLangID (bytesOf ['a', '1', 'c']) = Except.error Err.synErr :=
  (resolve_case_insensitive_digit_failure (bytesOf ['a', '1', 'c'])).2.2
    ⟨49, by decide, by decide⟩

/-- C8: resolving the grandfathered tag "en-GB-oed" succeeds; its table
value -2 slices `altTags[17:28]`, which is exactly "en-GB-x-oed", and the
result is the tag constructor applied to that literal. -/
theorem grandfathered_en_GB_oed_make :
    grandfathered (bytesOf ['e', 'n', '-', 'G', 'B', '-', 'o', 'e', 'd']) =
      (Make (bytesOf ['e', 'n', '-', 'G', 'B', '-', 'x', '-', 'o', 'e', 'd']),
        true) := by
  decide

/-- C9 counterexample: resolving "000" does not produce a syntax failure —
it parses as the integer 0 and fails the M.49 range check, producing a
value-range failure. -/
theorem region_000_failure_kind :
    ¬ getRegionID (bytesOf ['0', '0', '0']) = Except.error Err.synErr := by
  decide

/-- C9 (amended): "000" fails with a value-range failure, all-digit inputs
longer than 3 bytes ("1000") fail with a syntax failure (length mismatch on
the ISO-2 path), and unknown letter-initial 3-character sequences ("AAA")
fail with an invalid-subtag failure — three pairwise distinct kinds, with
the first two assignments swapped relative to the claim. -/
theorem region_boundary_failure_kinds :
    getRegionID (bytesOf ['0', '0', '0']) =
      Except.error (Err.valueRange (List.replicate 8 0)) ∧
    getRegionID (bytesOf ['1', '0', '0', '0']) = Except.error Err.synErr ∧
    getRegionID (bytesOf ['A', 'A', 'A']) =
      Except.error (Err.invalid (bytesOf ['A', 'A', 'A'])) := by
  decide

/-- C10: the grandfathered-tag resolver accepts the CLDR-specific string
"root", returning ok and the zero tag, whose language identifier is 0 —
the "und"/unspecified sentinel (identifier 0 renders as "und"). -/
theorem grandfathered_root_unspecified :
    grandfathered (bytesOf ['r', 'o', 'o', 't']) = (Tag.ofLang 0, true) ∧
    langString 0 = bytesOf ['u', 'n', 'd'] := by
  decide
